import Mathlib

/-!
# Verification of the expense-tracker engine (`src/output/expenses.py`)

Shallow embedding of the Python module `expenses.py`:

* Python `float` amounts and balances are modelled as `ℚ` (the arithmetic the
  program performs is addition and subtraction of user-entered decimal
  numbers; the claims and the spec treat them as exact real numbers).
* `datetime.date` values are modelled by their proleptic Gregorian ordinal
  (the value of Python `date.toordinal()`, an integer, `0001-01-01 ↦ 1`).
  Python date objects are in order-preserving bijection with their ordinals,
  so comparisons `start <= d <= end` become integer comparisons.
  `mkDate y m d` builds the ordinal of a calendar date the way
  `datetime.date(y, m, d)` does, and `civilFromDays` recovers the
  `(year, month, day)` fields, mirroring `date.fromordinal`.
* Python exceptions are modelled by the inductive `PyErr`, one constructor
  per `raise` site of the module.  Mutating methods return
  `Option PyErr × ExpenseManager`: the returned manager is the state after
  the call, including partial mutations performed before an exception was
  raised (Python objects keep such mutations when an exception propagates).
* `isinstance` checks in the source are type-level checks; they are
  enforced by the types of the embedding and have no runtime counterpart.
-/

/-! ## Calendar arithmetic (the fragment of `datetime` the module uses) -/

/-- Gregorian leap-year test, as `calendar.isleap` / `datetime` use it. -/
def isLeap (y : ℤ) : Bool :=
  y % 4 == 0 && (y % 100 != 0 || y % 400 == 0)

/-- Number of days in month `m` of year `y` (months numbered 1..12). -/
def daysInMonth (y m : ℤ) : ℤ :=
  if m = 2 then (if isLeap y then 29 else 28)
  else if m = 4 ∨ m = 6 ∨ m = 9 ∨ m = 11 then 30
  else 31

/-- Proleptic Gregorian ordinal of the calendar date `(y, m, d)`: the value
of `datetime.date(y, m, d).toordinal()` (so `mkDate 1 1 1 = 1`).  Uses the
standard civil-calendar formula with years shifted to start in March. -/
def mkDate (y m d : ℤ) : ℤ :=
  let yy : ℤ := y - (if m ≤ 2 then 1 else 0)
  let era : ℤ := yy / 400
  let yoe : ℤ := yy - era * 400
  let mp : ℤ := (m + 9) % 12
  let doy : ℤ := (153 * mp + 2) / 5 + d - 1
  let doe : ℤ := yoe * 365 + yoe / 4 - yoe / 100 + doy
  era * 146097 + doe - 305

/-- Inverse of `mkDate`: the `(year, month, day)` fields of the date with
ordinal `o`, mirroring `datetime.date.fromordinal` (and the `.year`,
`.month`, `.day` accessors used by `generate_report`). -/
def civilFromDays (o : ℤ) : ℤ × ℤ × ℤ :=
  let z : ℤ := o + 305
  let era : ℤ := z / 146097
  let doe : ℤ := z - era * 146097
  let yoe : ℤ := (doe - doe / 1460 + doe / 36524 - doe / 146096) / 365
  let y : ℤ := yoe + era * 400
  let doy : ℤ := doe - (365 * yoe + yoe / 4 - yoe / 100)
  let mp : ℤ := (5 * doy + 2) / 153
  let d : ℤ := doy - (153 * mp + 2) / 5 + 1
  let m : ℤ := mp + (if mp < 10 then 3 else -9)
  (y + (if m ≤ 2 then 1 else 0), m, d)

/-- The year field of the date with ordinal `o` (Python `o.year`). -/
def yearOf (o : ℤ) : ℤ := (civilFromDays o).1

/-- The month field of the date with ordinal `o` (Python `o.month`). -/
def monthOf (o : ℤ) : ℤ := (civilFromDays o).2.1

/-- Python `date.weekday()`: Monday = 0 .. Sunday = 6.
`0001-01-01` (ordinal 1) is a Monday. -/
def weekday (o : ℤ) : ℤ := (o + 6) % 7

/-! ## Errors

One constructor per `raise` site of `expenses.py`.  The spec groups these
into three error kinds (`ValidationError`, `InsufficientBalanceError`,
`IndexOutOfRange`); the predicates below realise that grouping. -/

/-- The exceptions `expenses.py` raises, one constructor per raise site. -/
inductive PyErr where
  /-- `ValueError("Amount must be positive.")` in `Expense.__init__`. -/
  | amountMustBePositive : PyErr
  /-- `ValueError("Initial balance cannot be negative.")` in
  `UserAccount.__init__`. -/
  | negativeInitialBalance : PyErr
  /-- `ValueError("Expense amount exceeds available balance.")` in
  `add_expense`. -/
  | amountExceedsBalance : PyErr
  /-- `ValueError("Expense amount exceeds available balance after update.")`
  in `update_expense`. -/
  | amountExceedsBalanceAfterUpdate : PyErr
  /-- `IndexError("Invalid expense index.")` in `update_expense` and
  `delete_expense`. -/
  | invalidExpenseIndex : PyErr
  /-- `ValueError` for a period other than weekly / monthly / yearly in
  `generate_report`. -/
  | invalidPeriod : PyErr
deriving DecidableEq, Repr

/-- The errors the spec calls `ValidationError`: malformed input to a
constructor or operation. -/
def PyErr.isValidationError : PyErr → Bool
  | .amountMustBePositive => true
  | .negativeInitialBalance => true
  | .invalidPeriod => true
  | _ => false

/-- The errors the spec calls `InsufficientBalanceError`: an add / update
would drive the account balance negative. -/
def PyErr.isInsufficientBalanceError : PyErr → Bool
  | .amountExceedsBalance => true
  | .amountExceedsBalanceAfterUpdate => true
  | _ => false

/-- The errors the spec calls `IndexOutOfRange`. -/
def PyErr.isIndexOutOfRange : PyErr → Bool
  | .invalidExpenseIndex => true
  | _ => false

/-! ## `Expense` -/

/-- A single expense entry (`class Expense`): `amount` a number, `category`
a string, `date` a `datetime.date` (modelled by its ordinal), `description`
a string. -/
structure Expense where
  amount : ℚ
  category : String
  date : ℤ
  description : String
deriving DecidableEq, Repr

/-- `Expense.__init__`: after the `isinstance` type checks (enforced here by
the argument types), raises `ValueError` when `amount <= 0`, otherwise
stores the four fields unchanged.  `description` defaults to `""`. -/
def Expense.init (amount : ℚ) (category : String) (date : ℤ)
    (description : String := "") : Except PyErr Expense :=
  if amount ≤ 0 then .error .amountMustBePositive
  else .ok { amount := amount, category := category, date := date,
             description := description }

/-! ## `UserAccount` -/

/-- A user account holding a balance (`class UserAccount`). -/
structure UserAccount where
  balance : ℚ
deriving DecidableEq, Repr

/-- `UserAccount.__init__`: raises `ValueError` when the initial balance is
negative. -/
def UserAccount.init (initial_balance : ℚ) : Except PyErr UserAccount :=
  if initial_balance < 0 then .error .negativeInitialBalance
  else .ok { balance := initial_balance }

/-- `UserAccount.update_balance(expense_amount)`: `balance -= expense_amount`.
Note the subtraction: the argument is the amount being deducted. -/
def UserAccount.update_balance (a : UserAccount) (expense_amount : ℚ) :
    UserAccount :=
  { balance := a.balance - expense_amount }

/-- `UserAccount.get_balance()`. -/
def UserAccount.get_balance (a : UserAccount) : ℚ := a.balance

/-! ## `ExpenseManager` -/

/-- The expense manager (`class ExpenseManager`): the ordered expense list
and the owned account. -/
structure ExpenseManager where
  expenses : List Expense
  user_account : UserAccount
deriving DecidableEq, Repr

/-- `ExpenseManager.__init__(user_account)`. -/
def ExpenseManager.init (user_account : UserAccount) : ExpenseManager :=
  { expenses := [], user_account := user_account }

/-- `ExpenseManager.get_remaining_balance()`. -/
def ExpenseManager.get_remaining_balance (m : ExpenseManager) : ℚ :=
  m.user_account.get_balance

/-- `ExpenseManager.add_expense(amount, category, date, description)`.
Raises when `amount > get_balance()` or when `Expense` construction fails;
on success appends the expense and deducts the amount.  The returned
manager is the post-call state (unchanged whenever an error is returned,
since both raises happen before any mutation). -/
def ExpenseManager.add_expense (m : ExpenseManager) (amount : ℚ)
    (category : String) (date : ℤ) (description : String := "") :
    Option PyErr × ExpenseManager :=
  if amount > m.user_account.get_balance then
    (some .amountExceedsBalance, m)
  else
    match Expense.init amount category date description with
    | .error e => (some e, m)
    | .ok expense =>
        (none, { expenses := m.expenses ++ [expense],
                 user_account := m.user_account.update_balance amount })

/-- `ExpenseManager.update_expense(index, amount, category, date,
description)`.  Mirrors the source line by line: index check, availability
check against `get_balance() + old.amount`, then
`update_balance(old.amount)` (the "revert"), construction of the new
`Expense`, replacement at `index`, and `update_balance(-amount)`.
When `Expense` construction raises, the mutation already performed by the
"revert" persists in the returned manager, exactly as in Python. -/
def ExpenseManager.update_expense (m : ExpenseManager) (index : ℤ)
    (amount : ℚ) (category : String) (date : ℤ)
    (description : String := "") : Option PyErr × ExpenseManager :=
  if h : 0 ≤ index ∧ index < (m.expenses.length : ℤ) then
    let original_expense := m.expenses.get ⟨index.toNat, by omega⟩
    let balance_increase := original_expense.amount
    let available_balance := m.user_account.get_balance + balance_increase
    if amount > available_balance then
      (some .amountExceedsBalanceAfterUpdate, m)
    else
      let m1 : ExpenseManager :=
        { m with user_account := m.user_account.update_balance balance_increase }
      match Expense.init amount category date description with
      | .error e => (some e, m1)
      | .ok expense =>
          (none, { expenses := m1.expenses.set index.toNat expense,
                   user_account := m1.user_account.update_balance (-amount) })
  else (some .invalidExpenseIndex, m)

/-- `ExpenseManager.delete_expense(index)`: index check, then
`update_balance(expense.amount)` (the comment in the source says "Restore
balance", but `update_balance` subtracts) and removal of the entry. -/
def ExpenseManager.delete_expense (m : ExpenseManager) (index : ℤ) :
    Option PyErr × ExpenseManager :=
  if h : 0 ≤ index ∧ index < (m.expenses.length : ℤ) then
    let expense := m.expenses.get ⟨index.toNat, by omega⟩
    (none, { expenses := m.expenses.eraseIdx index.toNat,
             user_account := m.user_account.update_balance expense.amount })
  else (some .invalidExpenseIndex, m)

/-- `ExpenseManager.get_expenses_by_period(start_date, end_date)`: the list
comprehension `[e for e in self.expenses if start_date <= e.date <= end_date]`. -/
def ExpenseManager.get_expenses_by_period (m : ExpenseManager)
    (start_date end_date : ℤ) : List Expense :=
  m.expenses.filter (fun e => decide (start_date ≤ e.date ∧ e.date ≤ end_date))

/-- `ExpenseManager.calculate_total_expenses(start_date, end_date)`:
`sum(e.amount for e in expenses_in_period)`. -/
def ExpenseManager.calculate_total_expenses (m : ExpenseManager)
    (start_date end_date : ℤ) : ℚ :=
  ((m.get_expenses_by_period start_date end_date).map Expense.amount).sum

/-- `ExpenseManager.get_all_expenses()`. -/
def ExpenseManager.get_all_expenses (m : ExpenseManager) : List Expense :=
  m.expenses

/-! ## Python dictionaries

`get_expenses_by_category` and `generate_report` build `dict`s.  A Python
`dict` is modelled as an association list ordered by first insertion:
assignment to an existing key updates the value in place, assignment to a
new key appends. -/

/-- `d.get(k, v0)`: the value at key `k`, or `v0` when absent. -/
def dictGetD (d : List (String × ℚ)) (k : String) (v0 : ℚ) : ℚ :=
  match d.find? (fun kv => kv.1 == k) with
  | some kv => kv.2
  | none => v0

/-- `d[k]` as an `Option`. -/
def dictFind (d : List (String × ℚ)) (k : String) : Option ℚ :=
  (d.find? (fun kv => kv.1 == k)).map Prod.snd

/-- `d[k] = v`: update in place when `k` is present, append otherwise. -/
def dictSet (d : List (String × ℚ)) (k : String) (v : ℚ) :
    List (String × ℚ) :=
  if d.any (fun kv => kv.1 == k) then
    d.map (fun kv => if kv.1 == k then (k, v) else kv)
  else d ++ [(k, v)]

/-- `ExpenseManager.get_expenses_by_category(start_date, end_date)`: folds
`category_totals[category] = category_totals.get(category, 0) + amount`
over the expenses in the period. -/
def ExpenseManager.get_expenses_by_category (m : ExpenseManager)
    (start_date end_date : ℤ) : List (String × ℚ) :=
  (m.get_expenses_by_period start_date end_date).foldl
    (fun category_totals e =>
      dictSet category_totals e.category
        (dictGetD category_totals e.category 0 + e.amount))
    []

/-! ## `generate_report`

The Python method reads `datetime.date.today()`; the embedding takes the
ordinal of that date as the extra argument `today`. -/

/-- The `{"total_expenses": ..., "category_breakdown": ...}` value stored
under the report label. -/
structure ReportEntry where
  total_expenses : ℚ
  category_breakdown : List (String × ℚ)
deriving DecidableEq, Repr

/-- `ExpenseManager.generate_report(period)` with `today` passed explicitly
(the ordinal of `datetime.date.today()`).  `today - timedelta(days=k)`
becomes `today - k`, and `date(y, m, d)` becomes `mkDate y m d`. -/
def ExpenseManager.generate_report (m : ExpenseManager) (today : ℤ)
    (period : String) : Except PyErr (List (String × ReportEntry)) :=
  if period = "weekly" then
    let start_date := today - weekday today
    let end_date := start_date + 6
    .ok [("Weekly Report",
      { total_expenses := m.calculate_total_expenses start_date end_date,
        category_breakdown := m.get_expenses_by_category start_date end_date })]
  else if period = "monthly" then
    let year := yearOf today
    let month := monthOf today
    let start_date := mkDate year month 1
    let next_month := if month < 12 then month + 1 else 1
    let next_year := if month = 12 then year + 1 else year
    let end_date := mkDate next_year next_month 1 - 1
    .ok [("Monthly Report",
      { total_expenses := m.calculate_total_expenses start_date end_date,
        category_breakdown := m.get_expenses_by_category start_date end_date })]
  else if period = "yearly" then
    let year := yearOf today
    let start_date := mkDate year 1 1
    let end_date := mkDate year 12 31
    .ok [("Yearly Report",
      { total_expenses := m.calculate_total_expenses start_date end_date,
        category_breakdown := m.get_expenses_by_category start_date end_date })]
  else .error .invalidPeriod

/-! ## The worked example of the spec (§8)

Initial balance 100; `add_expense(30, "Food", 2024-01-05, "lunch")`;
`add_expense(50, "Food", 2024-01-06, "dinner")`. -/

/-- The manager right after construction with initial balance 100. -/
def exampleManager0 : ExpenseManager := ExpenseManager.init { balance := 100 }

/-- The state after the first add of the worked example (balance 70). -/
def exampleManager1 : ExpenseManager :=
  (exampleManager0.add_expense 30 "Food" (mkDate 2024 1 5) "lunch").2

/-- The state after the second add of the worked example (balance 20). -/
def exampleManager2 : ExpenseManager :=
  (exampleManager1.add_expense 50 "Food" (mkDate 2024 1 6) "dinner").2

/-- The state of the worked example written out literally (balance 20, the
two "Food" expenses), used to instantiate hypotheses concretely. -/
def literalManager : ExpenseManager :=
  { expenses := [{ amount := 30, category := "Food",
                   date := mkDate 2024 1 5, description := "lunch" },
                 { amount := 50, category := "Food",
                   date := mkDate 2024 1 6, description := "dinner" }],
    user_account := { balance := 20 } }

/-- Evaluation of the worked example: after the first add the ledger holds
the 30 "Food" expense and the balance is 70. -/
theorem exampleManager1_eq :
    exampleManager1 =
      { expenses := [{ amount := 30, category := "Food",
                       date := mkDate 2024 1 5, description := "lunch" }],
        user_account := { balance := 70 } } := by
  norm_num [exampleManager1, exampleManager0, ExpenseManager.init,
    ExpenseManager.add_expense, Expense.init, UserAccount.get_balance,
    UserAccount.update_balance]

/-- Evaluation of the worked example: after the second add the ledger holds
both "Food" expenses and the balance is 20. -/
theorem exampleManager2_eq :
    exampleManager2 =
      { expenses := [{ amount := 30, category := "Food",
                       date := mkDate 2024 1 5, description := "lunch" },
                     { amount := 50, category := "Food",
                       date := mkDate 2024 1 6, description := "dinner" }],
        user_account := { balance := 20 } } := by
  norm_num [exampleManager2, exampleManager1_eq, ExpenseManager.add_expense,
    Expense.init, UserAccount.get_balance, UserAccount.update_balance]

/-! ## General helper lemmas -/

/-- Setting a list entry to its current value is the identity. -/
theorem list_set_get_self {α : Type} (l : List α) (i : ℕ) (h : i < l.length) :
    l.set i l[i] = l := by
  apply List.ext_getElem
  · simp
  · intro n h1 h2
    rw [List.getElem_set]
    split
    · next heq => subst heq; rfl
    · rfl

/-- The day `today.weekday()` days before `today` is a Monday. -/
theorem weekday_start_monday (o : ℤ) : weekday (o - weekday o) = 0 := by
  unfold weekday
  omega

/-- The month field produced by `civilFromDays` is always in `1..12`. -/
theorem monthOf_bounds (o : ℤ) : 1 ≤ monthOf o ∧ monthOf o ≤ 12 := by
  unfold monthOf civilFromDays
  simp only []
  omega

/-- Unfolding of the Boolean leap-year test. -/
theorem isLeap_iff (y : ℤ) :
    isLeap y = true ↔ (y % 4 = 0 ∧ (y % 100 ≠ 0 ∨ y % 400 = 0)) := by
  simp [isLeap, Bool.and_eq_true, Bool.or_eq_true, beq_iff_eq, bne_iff_ne]

/-- The first day of the next month (with December wrapping to January of
the next year, exactly as `generate_report` computes it) is the day after
the last day of the current month. -/
theorem mkDate_next_month (y m : ℤ) (h1 : 1 ≤ m) (h2 : m ≤ 12) :
    mkDate (if m = 12 then y + 1 else y) (if m < 12 then m + 1 else 1) 1 =
      mkDate y m (daysInMonth y m) + 1 := by
  interval_cases m
  all_goals
    first
    | (simp only [mkDate, daysInMonth]; norm_num; omega)
    | (simp only [daysInMonth]
       norm_num
       by_cases hl : isLeap y = true
       all_goals
         simp only [hl, if_true, if_false]
       all_goals
         rw [isLeap_iff] at hl
       all_goals
         simp only [mkDate]
       all_goals
         norm_num
       · omega
       · omega)

/-- In-place dict update: looking up the assigned key finds the new value. -/
theorem find?_map_update (d : List (String × ℚ)) (k : String) (v : ℚ)
    (h : d.any (fun kv => kv.1 == k) = true) :
    (d.map (fun kv => if kv.1 == k then (k, v) else kv)).find?
      (fun kv => kv.1 == k) = some (k, v) := by
  induction d with
  | nil => simp at h
  | cons a d ih =>
    rw [List.map_cons]
    by_cases ha : a.1 = k
    · rw [if_pos (by simpa using ha), List.find?_cons_of_pos _ (by simp)]
    · have ha' : (a.1 == k) = false := by simpa using ha
      rw [if_neg (by simp [ha']), List.find?_cons_of_neg _ (by simp [ha'])]
      apply ih
      simpa [ha'] using h

/-- In-place dict update: lookups of other keys are unaffected. -/
theorem find?_map_update_ne (d : List (String × ℚ)) (k c : String) (v : ℚ)
    (hkc : k ≠ c) :
    (d.map (fun kv => if kv.1 == k then (k, v) else kv)).find?
      (fun kv => kv.1 == c) = d.find? (fun kv => kv.1 == c) := by
  have hkc' : (k == c) = false := by simpa using hkc
  induction d with
  | nil => simp
  | cons a d ih =>
    rw [List.map_cons]
    by_cases ha : a.1 = k
    · have hac : (a.1 == c) = false := by
        simp only [beq_eq_false_iff_ne]
        rw [ha]; exact hkc
      rw [if_pos (by simpa using ha),
        List.find?_cons_of_neg _ (by simp [hkc']),
        List.find?_cons_of_neg _ (by simp [hac])]
      exact ih
    · have ha' : (a.1 == k) = false := by simpa using ha
      rw [if_neg (by simp [ha'])]
      cases hac : (a.1 == c) with
      | true =>
        rw [List.find?_cons_of_pos _ (by simp [hac]),
          List.find?_cons_of_pos _ (by simp [hac])]
      | false =>
        rw [List.find?_cons_of_neg _ (by simp [hac]),
          List.find?_cons_of_neg _ (by simp [hac])]
        exact ih

/-- Looking up the key just assigned by `dictSet` yields the new value. -/
theorem dictFind_dictSet_self (d : List (String × ℚ)) (k : String) (v : ℚ) :
    dictFind (dictSet d k v) k = some v := by
  unfold dictFind dictSet
  by_cases h : d.any (fun kv => kv.1 == k) = true
  · rw [if_pos h, find?_map_update d k v h]
    rfl
  · rw [if_neg h, List.find?_append]
    have hfalse : d.any (fun kv => kv.1 == k) = false :=
      Bool.eq_false_iff.mpr h
    have hnone : d.find? (fun kv => kv.1 == k) = none := by
      rw [List.find?_eq_none]
      intro kv hkv
      simpa using List.any_eq_false.mp hfalse kv hkv
    rw [hnone]
    simp

/-- `dictSet` leaves lookups of every other key unchanged. -/
theorem dictFind_dictSet_ne (d : List (String × ℚ)) (k c : String) (v : ℚ)
    (hkc : k ≠ c) :
    dictFind (dictSet d k v) c = dictFind d c := by
  unfold dictFind dictSet
  have hkc' : (k == c) = false := by simpa using hkc
  by_cases h : d.any (fun kv => kv.1 == k) = true
  · rw [if_pos h, find?_map_update_ne d k c v hkc]
  · rw [if_neg h, List.find?_append]
    rw [List.find?_cons_of_neg _ (by simp [hkc']), List.find?_nil]
    cases d.find? (fun kv => kv.1 == c) <;> rfl

/-- `dict.get(k, v0)` is the lookup with default `v0`. -/
theorem dictGetD_eq_dictFind (d : List (String × ℚ)) (k : String) (v0 : ℚ) :
    dictGetD d k v0 = (dictFind d k).getD v0 := by
  unfold dictGetD dictFind
  cases d.find? (fun kv => kv.1 == k) <;> rfl

/-- The category-totals fold, characterised: looking up `c` in the folded
dict extends a lookup in the accumulator by the sum of the amounts of the
processed expenses whose category is `c`. -/
theorem foldl_category_totals (l : List Expense)
    (acc : List (String × ℚ)) (c : String) :
    dictFind (l.foldl (fun category_totals e =>
        dictSet category_totals e.category
          (dictGetD category_totals e.category 0 + e.amount)) acc) c =
      (if l.filter (fun x => x.category == c) = []
       then dictFind acc c
       else some (dictGetD acc c 0 +
         ((l.filter (fun x => x.category == c)).map Expense.amount).sum)) := by
  induction l generalizing acc with
  | nil => simp
  | cons x l ih =>
    by_cases hc : x.category = c
    · subst hc
      rw [List.foldl_cons, List.filter_cons_of_pos (by simp), ih]
      by_cases hl : l.filter (fun y => y.category == x.category) = []
      · rw [if_pos hl, if_neg (List.cons_ne_nil _ _), hl,
          dictFind_dictSet_self]
        simp
      · rw [if_neg hl, if_neg (List.cons_ne_nil _ _), dictGetD_eq_dictFind,
          dictFind_dictSet_self, List.map_cons, List.sum_cons]
        simp only [Option.getD_some]
        congr 1
        ring
    · have hc' : (x.category == c) = false := by simpa using hc
      rw [List.foldl_cons, List.filter_cons_of_neg (by simp [hc']), ih]
      simp only [dictGetD_eq_dictFind, dictFind_dictSet_ne _ _ _ _ hc]

/-- The keys of `dictSet d k v`: unchanged when `k` is present, extended by
`k` otherwise. -/
theorem dictSet_keys (d : List (String × ℚ)) (k : String) (v : ℚ) :
    (dictSet d k v).map Prod.fst =
      (if d.any (fun kv => kv.1 == k) then d.map Prod.fst
       else d.map Prod.fst ++ [k]) := by
  unfold dictSet
  by_cases h : d.any (fun kv => kv.1 == k) = true
  · rw [if_pos h, if_pos h, List.map_map]
    apply List.map_congr_left
    intro kv _
    by_cases hkv : kv.1 = k
    · simp [hkv]
    · simp [hkv, beq_eq_false_iff_ne.mpr hkv]
  · rw [if_neg h, if_neg h, List.map_append]
    rfl

/-- The category-totals fold keeps the dict keys duplicate-free. -/
theorem foldl_category_keys_nodup (l : List Expense)
    (acc : List (String × ℚ)) (hacc : (acc.map Prod.fst).Nodup) :
    ((l.foldl (fun category_totals e =>
        dictSet category_totals e.category
          (dictGetD category_totals e.category 0 + e.amount))
      acc).map Prod.fst).Nodup := by
  induction l generalizing acc with
  | nil => exact hacc
  | cons x l ih =>
    rw [List.foldl_cons]
    apply ih
    rw [dictSet_keys]
    by_cases h : acc.any (fun kv => kv.1 == x.category) = true
    · rw [if_pos h]; exact hacc
    · rw [if_neg h]
      have hfalse : acc.any (fun kv => kv.1 == x.category) = false :=
        Bool.eq_false_iff.mpr h
      rw [List.nodup_append]
      refine ⟨hacc, List.nodup_singleton _, ?_⟩
      intro a ha hb
      simp only [List.mem_singleton] at hb
      subst hb
      obtain ⟨kv, hkv, hfst⟩ := List.mem_map.mp ha
      have hne : kv.1 ≠ x.category := by
        simpa using List.any_eq_false.mp hfalse kv hkv
      exact hne hfst

/-! ## Claims -/

/-- C3 (counterexample): the claim says `Expense` construction fails with
`ValidationError` when the category is empty text, but
`Expense.__init__` never checks the category: constructing an expense with
amount 1, category `""` and date 2024-01-05 succeeds. -/
theorem expense_init_empty_category_accepted :
    Expense.init 1 "" (mkDate 2024 1 5) "" =
      .ok { amount := 1, category := "", date := mkDate 2024 1 5,
            description := "" } := by
  rfl

/-- C3 (amended): given arguments of the declared types, `Expense`
construction fails exactly when the amount is not strictly positive (and
that failure is a `ValidationError`); the category may be any string,
including the empty one, and a `datetime.date` argument is a valid
calendar date by construction.  On success the expense stores exactly the
given amount, category, date and description (the description defaulting
to the empty string in the source). -/
theorem expense_init_characterisation (a : ℚ) (c : String) (d : ℤ)
    (desc : String) :
    Expense.init a c d desc =
      (if a ≤ 0 then .error .amountMustBePositive
       else .ok { amount := a, category := c, date := d,
                  description := desc })
    ∧ PyErr.amountMustBePositive.isValidationError = true := by
  exact ⟨rfl, rfl⟩

/-- C4: adding an expense whose amount strictly exceeds the current balance
fails with `InsufficientBalanceError` and returns the manager completely
unchanged (same balance, same expense list). -/
theorem add_expense_insufficient_balance (m : ExpenseManager) (amount : ℚ)
    (category : String) (date : ℤ) (description : String)
    (h : m.user_account.get_balance < amount) :
    m.add_expense amount category date description =
      (some .amountExceedsBalance, m)
    ∧ PyErr.amountExceedsBalance.isInsufficientBalanceError = true := by
  refine ⟨?_, rfl⟩
  simp only [ExpenseManager.add_expense, if_pos h]

/-- C4 (witness): the third add of the worked example — amount 25 against
balance 20 — fails with `InsufficientBalanceError` and changes nothing. -/
theorem add_expense_insufficient_balance_witness :
    exampleManager2.user_account.get_balance < 25
    ∧ (exampleManager2.add_expense 25 "Transport" (mkDate 2024 1 7) "" =
        (some .amountExceedsBalance, exampleManager2)
      ∧ PyErr.amountExceedsBalance.isInsufficientBalanceError = true) :=
  ⟨by rw [exampleManager2_eq]; norm_num [UserAccount.get_balance],
   add_expense_insufficient_balance exampleManager2 25 "Transport"
     (mkDate 2024 1 7) ""
     (by rw [exampleManager2_eq]; norm_num [UserAccount.get_balance])⟩

/-- C7 (counterexample): the claim says `expenses_in_period` fails with
`ValidationError` when `start > end`, but `get_expenses_by_period` performs
no such check: on the worked example with start 2024-02-01 > end
2024-01-01 it silently returns the empty list (in the embedding the
function is total — it has no error outcome at all). -/
theorem get_expenses_by_period_reversed_range_silent :
    exampleManager2.get_expenses_by_period (mkDate 2024 2 1)
      (mkDate 2024 1 1) = [] := by
  rw [exampleManager2_eq]
  decide

/-- C7 (amended): when `start > end`, `get_expenses_by_period` silently
returns the empty list rather than failing (the comparison
`start <= e.date <= end` is unsatisfiable). -/
theorem get_expenses_by_period_reversed_range (m : ExpenseManager)
    (start_date end_date : ℤ) (h : end_date < start_date) :
    m.get_expenses_by_period start_date end_date = [] := by
  simp only [ExpenseManager.get_expenses_by_period, List.filter_eq_nil_iff]
  intro e _
  simp only [decide_eq_true_eq, not_and]
  intro h1
  omega

/-- C7 (witness for the amended claim): instantiated on the worked example
with the reversed range 2024-02-01 .. 2024-01-01. -/
theorem get_expenses_by_period_reversed_range_witness :
    mkDate 2024 1 1 < mkDate 2024 2 1
    ∧ exampleManager2.get_expenses_by_period (mkDate 2024 2 1)
        (mkDate 2024 1 1) = [] :=
  ⟨by decide,
   get_expenses_by_period_reversed_range exampleManager2 (mkDate 2024 2 1)
     (mkDate 2024 1 1) (by decide)⟩

/-- C1: the balance/ledger invariant is broken by the code.
`UserAccount.update_balance` subtracts its argument, yet `delete_expense`
calls `update_balance(expense.amount)` under the comment "Restore balance":
starting from initial balance 100 and the successful
`add_expense(30, "Food", 2024-01-05, "lunch")`, the successful
`delete_expense(0)` leaves an empty ledger with balance 40, where the
claimed invariant requires `100 - 0 = 100`. -/
theorem invariant_broken_by_delete :
    exampleManager1.delete_expense 0 =
      (none, { expenses := [], user_account := { balance := 40 } })
    ∧ ((exampleManager1.delete_expense 0).2).get_remaining_balance ≠
        100 - (((exampleManager1.delete_expense 0).2).expenses.map
          Expense.amount).sum := by
  rw [exampleManager1_eq]
  norm_num [ExpenseManager.delete_expense, ExpenseManager.get_remaining_balance,
    UserAccount.update_balance, UserAccount.get_balance]

/-- C2: when `update_expense` passes the available-balance check but the
new `Expense` fails validation, the claim says the state is left exactly
as before (balance revert rolled back).  The code instead mutates the
balance before constructing the new expense and never rolls back — and its
"revert" even has the wrong sign: on the ledger with balance 70 and the
single expense of amount 30, `update_expense(0, -5, "Food", 2024-01-05)`
passes the availability check (`-5 ≤ 70 + 30`), then fails validation and
leaves the balance at `70 - 30 = 40`, not 70 (the expense list is
unchanged). -/
theorem update_validation_failure_not_rolled_back :
    exampleManager1.update_expense 0 (-5) "Food" (mkDate 2024 1 5) "" =
      (some .amountMustBePositive,
       { expenses := [{ amount := 30, category := "Food",
                        date := mkDate 2024 1 5, description := "lunch" }],
         user_account := { balance := 40 } })
    ∧ PyErr.amountMustBePositive.isValidationError = true
    ∧ (40 : ℚ) ≠ 70 := by
  rw [exampleManager1_eq]
  refine ⟨?_, rfl, by norm_num⟩
  norm_num [ExpenseManager.update_expense, Expense.init,
    UserAccount.update_balance, UserAccount.get_balance]

/-- C5: on the worked example (balance 20, expenses of amounts 30 and 50),
the claim says `update_expense(0, 10, "Food", 2024-01-05, "lunch-small")`
succeeds and leaves balance 60.0, and in general that a successful update
changes the balance by `old - new` (which here would give `20 + 30 - 10 =
40`).  The code instead subtracts the old amount and adds the new one
(`update_balance` subtracts its argument), leaving balance
`20 - 30 + 10 = 0`: it agrees with neither the claimed example value 60
nor the claimed general rule. -/
theorem update_balance_sign_reversed :
    exampleManager2.update_expense 0 10 "Food" (mkDate 2024 1 5)
        "lunch-small" =
      (none,
       { expenses := [{ amount := 10, category := "Food",
                        date := mkDate 2024 1 5,
                        description := "lunch-small" },
                      { amount := 50, category := "Food",
                        date := mkDate 2024 1 6, description := "dinner" }],
         user_account := { balance := 0 } })
    ∧ (0 : ℚ) ≠ 60
    ∧ (0 : ℚ) ≠ 20 + (30 - 10) := by
  rw [exampleManager2_eq]
  norm_num [ExpenseManager.update_expense, Expense.init,
    UserAccount.update_balance, UserAccount.get_balance]

/-- C6: for `start ≤ end`, `get_expenses_by_period` returns a subsequence
of the expense list (hence in original insertion order) whose members are
exactly the stored expenses dated within `[start, end]`, both ends
inclusive; `calculate_total_expenses` is the sum of the amounts of that
selection, and it is 0 when no expense matches. -/
theorem get_expenses_by_period_characterisation (m : ExpenseManager)
    (start_date end_date : ℤ) (_hse : start_date ≤ end_date) :
    (m.get_expenses_by_period start_date end_date).Sublist m.expenses
    ∧ (∀ x : Expense, x ∈ m.get_expenses_by_period start_date end_date ↔
        x ∈ m.expenses ∧ start_date ≤ x.date ∧ x.date ≤ end_date)
    ∧ m.calculate_total_expenses start_date end_date =
        ((m.get_expenses_by_period start_date end_date).map
          Expense.amount).sum
    ∧ ((∀ x ∈ m.expenses, ¬(start_date ≤ x.date ∧ x.date ≤ end_date)) →
        m.calculate_total_expenses start_date end_date = 0) := by
  refine ⟨List.filter_sublist m.expenses, ?_, rfl, ?_⟩
  · intro x
    simp [ExpenseManager.get_expenses_by_period, List.mem_filter]
  · intro hnone
    have hnil : m.get_expenses_by_period start_date end_date = [] := by
      simp only [ExpenseManager.get_expenses_by_period,
        List.filter_eq_nil_iff]
      intro e he
      simpa using hnone e he
    simp [ExpenseManager.calculate_total_expenses, hnil]

/-- C6 (witness): instantiated on the worked example over January 2024:
both stored expenses are selected and the total is 80. -/
theorem get_expenses_by_period_characterisation_witness :
    mkDate 2024 1 1 ≤ mkDate 2024 1 31
    ∧ ((exampleManager2.get_expenses_by_period (mkDate 2024 1 1)
          (mkDate 2024 1 31)).Sublist exampleManager2.expenses
      ∧ (∀ x : Expense, x ∈ exampleManager2.get_expenses_by_period
            (mkDate 2024 1 1) (mkDate 2024 1 31) ↔
          x ∈ exampleManager2.expenses
            ∧ mkDate 2024 1 1 ≤ x.date ∧ x.date ≤ mkDate 2024 1 31)
      ∧ exampleManager2.calculate_total_expenses (mkDate 2024 1 1)
            (mkDate 2024 1 31) =
          ((exampleManager2.get_expenses_by_period (mkDate 2024 1 1)
            (mkDate 2024 1 31)).map Expense.amount).sum
      ∧ ((∀ x ∈ exampleManager2.expenses,
            ¬(mkDate 2024 1 1 ≤ x.date ∧ x.date ≤ mkDate 2024 1 31)) →
          exampleManager2.calculate_total_expenses (mkDate 2024 1 1)
            (mkDate 2024 1 31) = 0)) :=
  ⟨by decide,
   get_expenses_by_period_characterisation exampleManager2
     (mkDate 2024 1 1) (mkDate 2024 1 31) (by decide)⟩




/-- C10 (counterexample): the claim asserts update-to-own-values succeeds
on every ledger state, but on the state reached by initial balance 100,
two adds of amount 50 and `delete_expense(1)` — whose balance is `-50`
because of the sign error in `delete_expense` — updating the remaining
expense to its own current values fails with
`InsufficientBalanceError` (`50 > -50 + 50`). -/
theorem update_to_current_values_can_fail :
    let m1 := ((ExpenseManager.init { balance := 100 }).add_expense 50
      "Food" (mkDate 2024 1 5) "a").2
    let m2 := (m1.add_expense 50 "Food" (mkDate 2024 1 6) "b").2
    let m3 := (m2.delete_expense 1).2
    m3.expenses = [{ amount := 50, category := "Food",
                     date := mkDate 2024 1 5, description := "a" }]
    ∧ m3.user_account.balance = -50
    ∧ m3.update_expense 0 50 "Food" (mkDate 2024 1 5) "a" =
        (some .amountExceedsBalanceAfterUpdate, m3) := by
  norm_num [ExpenseManager.init, ExpenseManager.add_expense,
    ExpenseManager.delete_expense, ExpenseManager.update_expense,
    Expense.init, UserAccount.update_balance, UserAccount.get_balance]

/-- C10 (amended): on a ledger state whose account balance is non-negative
and whose expense at the in-range index `i` has a positive amount — both
facts hold on every state the intended semantics can reach — updating that
expense to exactly its own current field values succeeds and returns the
manager completely unchanged: same balance, same entry at `i`, and every
other entry untouched. -/
theorem update_to_current_values_noop (m : ExpenseManager) (i : ℕ)
    (h : i < m.expenses.length) (hbal : 0 ≤ m.user_account.balance)
    (hamt : 0 < (m.expenses.get ⟨i, h⟩).amount) :
    m.update_expense (i : ℤ) (m.expenses.get ⟨i, h⟩).amount
      (m.expenses.get ⟨i, h⟩).category (m.expenses.get ⟨i, h⟩).date
      (m.expenses.get ⟨i, h⟩).description = (none, m) := by
  obtain ⟨es, ⟨bal⟩⟩ := m
  simp only [ExpenseManager.update_expense]
  rw [dif_pos ⟨Int.natCast_nonneg i, by exact_mod_cast h⟩]
  simp only [Int.toNat_natCast, UserAccount.get_balance,
    UserAccount.update_balance]
  rw [if_neg (by simp only [gt_iff_lt, not_lt]; linarith)]
  rw [Expense.init, if_neg (not_le.mpr hamt)]
  refine Prod.ext rfl ?_
  simp only []
  congr 1
  · exact list_set_get_self es i h
  · congr 1
    ring

/-- C10 (witness): the amended no-op theorem applied to `literalManager`
at index 0 (balance 20, entry of amount 30). -/
theorem update_to_current_values_noop_witness :
    0 < literalManager.expenses.length
    ∧ literalManager.update_expense (0 : ℤ)
        (literalManager.expenses.get ⟨0, Nat.zero_lt_succ _⟩).amount
        (literalManager.expenses.get ⟨0, Nat.zero_lt_succ _⟩).category
        (literalManager.expenses.get ⟨0, Nat.zero_lt_succ _⟩).date
        (literalManager.expenses.get ⟨0, Nat.zero_lt_succ _⟩).description
      = (none, literalManager) :=
  ⟨Nat.zero_lt_succ _,
   update_to_current_values_noop literalManager 0
    (Nat.zero_lt_succ _) (by norm_num [literalManager])
    (by norm_num [literalManager])⟩

/-- C8: for every period, `get_expenses_by_category` is a duplicate-free
mapping in which a category label `c` is present exactly when some expense
of category `c` (labels compared case-sensitively, by string equality) is
dated in the period, and is then mapped to the sum of the amounts of those
expenses; categories with no matching expense are absent rather than
mapped to 0.  On the worked example — Food expenses of 30 and 50 dated
2024-01-05 and 2024-01-06 — the breakdown over 2024-01-01 .. 2024-01-31 is
`{"Food": 80.0}`. -/
theorem get_expenses_by_category_characterisation (m : ExpenseManager)
    (start_date end_date : ℤ) :
    (∀ c : String,
      dictFind (m.get_expenses_by_category start_date end_date) c =
        (if (m.get_expenses_by_period start_date end_date).filter
              (fun x => x.category == c) = []
         then none
         else some ((((m.get_expenses_by_period start_date end_date).filter
              (fun x => x.category == c)).map Expense.amount).sum)))
    ∧ ((m.get_expenses_by_category start_date end_date).map
        Prod.fst).Nodup
    ∧ exampleManager2.get_expenses_by_category (mkDate 2024 1 1)
        (mkDate 2024 1 31) = [("Food", 80)] := by
  refine ⟨?_, ?_, ?_⟩
  · intro c
    unfold ExpenseManager.get_expenses_by_category
    rw [foldl_category_totals]
    by_cases h : (m.get_expenses_by_period start_date end_date).filter
        (fun x => x.category == c) = []
    · rw [if_pos h, if_pos h]; rfl
    · rw [if_neg h, if_neg h]
      congr 1
      simp [dictGetD]
  · unfold ExpenseManager.get_expenses_by_category
    exact foldl_category_keys_nodup _ _ (by simp)
  · rw [exampleManager2_eq,
      show mkDate 2024 1 5 = 738890 from by decide,
      show mkDate 2024 1 6 = 738891 from by decide,
      show mkDate 2024 1 1 = 738886 from by decide,
      show mkDate 2024 1 31 = 738916 from by decide]
    norm_num [ExpenseManager.get_expenses_by_category,
      ExpenseManager.get_expenses_by_period, dictSet, dictGetD, dictFind,
      List.filter, List.foldl, List.find?, List.any]

/-- C9: `generate_report` fails with `ValidationError` on any period other
than "weekly" / "monthly" / "yearly".  For a valid kind it returns the
single-entry mapping keyed "Weekly Report" / "Monthly Report" /
"Yearly Report" whose value holds `calculate_total_expenses` and
`get_expenses_by_category` over the window anchored at `today`:
for weekly, the window starts `today.weekday()` days before `today` —
a Monday — and ends six days later — a Sunday — with `today` inside it
(Monday through Sunday of the current ISO week); for monthly, the first
through the last calendar day of `today`'s month (December wrapping
handled by `mkDate_next_month`); for yearly, January 1 through
December 31 of `today`'s year. -/
theorem generate_report_characterisation (m : ExpenseManager) (today : ℤ)
    (period : String) :
    (¬(period = "weekly" ∨ period = "monthly" ∨ period = "yearly") →
        m.generate_report today period = .error .invalidPeriod
        ∧ PyErr.invalidPeriod.isValidationError = true)
    ∧ (m.generate_report today "weekly" =
        .ok [("Weekly Report",
          { total_expenses := m.calculate_total_expenses
              (today - weekday today) (today - weekday today + 6),
            category_breakdown := m.get_expenses_by_category
              (today - weekday today) (today - weekday today + 6) })]
      ∧ weekday (today - weekday today) = 0
      ∧ weekday (today - weekday today + 6) = 6
      ∧ today - weekday today ≤ today
      ∧ today ≤ today - weekday today + 6)
    ∧ m.generate_report today "monthly" =
        .ok [("Monthly Report",
          { total_expenses := m.calculate_total_expenses
              (mkDate (yearOf today) (monthOf today) 1)
              (mkDate (yearOf today) (monthOf today)
                (daysInMonth (yearOf today) (monthOf today))),
            category_breakdown := m.get_expenses_by_category
              (mkDate (yearOf today) (monthOf today) 1)
              (mkDate (yearOf today) (monthOf today)
                (daysInMonth (yearOf today) (monthOf today))) })]
    ∧ m.generate_report today "yearly" =
        .ok [("Yearly Report",
          { total_expenses := m.calculate_total_expenses
              (mkDate (yearOf today) 1 1) (mkDate (yearOf today) 12 31),
            category_breakdown := m.get_expenses_by_category
              (mkDate (yearOf today) 1 1) (mkDate (yearOf today) 12 31) })] := by
  refine ⟨?_, ⟨?_, weekday_start_monday today, ?_, ?_, ?_⟩, ?_, ?_⟩
  · intro hbad
    push_neg at hbad
    unfold ExpenseManager.generate_report
    rw [if_neg hbad.1, if_neg hbad.2.1, if_neg hbad.2.2]
    exact ⟨rfl, rfl⟩
  · unfold ExpenseManager.generate_report
    rw [if_pos rfl]
  · unfold weekday; omega
  · unfold weekday; omega
  · unfold weekday; omega
  · unfold ExpenseManager.generate_report
    rw [if_neg (by decide), if_pos rfl]
    have hb := monthOf_bounds today
    have h := mkDate_next_month (yearOf today) (monthOf today) hb.1 hb.2
    have hEnd : mkDate (if monthOf today = 12 then yearOf today + 1
          else yearOf today)
        (if monthOf today < 12 then monthOf today + 1 else 1) 1 - 1 =
        mkDate (yearOf today) (monthOf today)
          (daysInMonth (yearOf today) (monthOf today)) := by omega
    simp only [hEnd]
  · unfold ExpenseManager.generate_report
    rw [if_neg (by decide), if_neg (by decide), if_pos rfl]

/-- C9 (witness): applied on an empty manager with today = 2026-10-12 and
the invalid period "daily". -/
theorem generate_report_characterisation_witness :
    ¬("daily" = "weekly" ∨ "daily" = "monthly" ∨ "daily" = "yearly")
    ∧ ((ExpenseManager.init { balance := 100 }).generate_report
          (mkDate 2026 10 12) "daily" = .error .invalidPeriod
      ∧ PyErr.invalidPeriod.isValidationError = true) :=
  ⟨by decide,
   (generate_report_characterisation
     (ExpenseManager.init { balance := 100 })
     (mkDate 2026 10 12) "daily").1 (by decide)⟩
